import Mathlib

/-!
Shallow embedding of `src/flask_app/app.py` (a minimal Flask application
factory) together with the framework-default request dispatch behavior the
application relies on: the framework auto-registers a static-file rule
`/static/<path:filename>` because the constructor is given a static folder,
a path matched by no rule yields the framework 404 response, a path matched
with a disallowed method yields 405, and an uncaught error while rendering
a template yields the framework 500 response.
-/

namespace Climb

/-- An HTTP request: method, path, and the request content the handler could
in principle inspect (headers, query string, body). -/
structure Request where
  method : String
  path : String
  headers : List (String × String)
  query : String
  body : String
  deriving Repr, DecidableEq

/-- An HTTP response: status code, Content-Type, and body. -/
structure Response where
  status : Nat
  contentType : String
  body : String
  deriving Repr, DecidableEq

/-- The template loader environment: maps a template name to its contents
when the template file exists, `none` when it is absent. -/
def TemplateEnv : Type := String → Option String

/-- The static-asset directory contents: maps a filename (relative to the
static folder, slashes allowed) to its contents when the file exists,
`none` when it is absent. -/
def StaticEnv : Type := String → Option String

/-- A registered URL route: the rule (path pattern), the endpoint name, and
the HTTP methods the route accepts. -/
structure Route where
  rule : String
  endpoint : String
  methods : List String
  deriving Repr, DecidableEq

/-- A Flask application instance as configured by this repository: a
static-file root, a template root, and the route table the code registers. -/
structure FlaskApp where
  static_folder : String
  template_folder : String
  routes : List Route
  deriving Repr, DecidableEq

/-- `render_template(name)`: looks the template up in the loader
environment; `some` rendered contents when the file exists, `none` when it
is absent (in which case the exception propagates to the framework). -/
def render_template (env : TemplateEnv) (name : String) : Option String :=
  env name

/-- The body of the `index` handler registered on `'/'`:
`return render_template('index.html')`. -/
def index (env : TemplateEnv) : Option String :=
  render_template env "index.html"

/-- `create_app()`: `Flask(__name__, static_folder='static',
template_folder='templates')` with the single route `'/'` (default Flask
route methods `GET`/`HEAD`/`OPTIONS`) bound to the `index` endpoint. -/
def create_app : FlaskApp :=
  { static_folder := "static"
    template_folder := "templates"
    routes := [⟨"/", "index", ["GET", "HEAD", "OPTIONS"]⟩] }

/-- One invocation of the factory. Each call allocates a fresh instance; the
call index stands for the fresh instance's identity, paired with the
configuration the factory produced on that call. -/
def create_app_call (callIdx : Nat) : FlaskApp × Nat :=
  (create_app, callIdx)

/-- The framework-default 404 Not Found response. -/
def notFoundResponse : Response :=
  { status := 404
    contentType := "text/html"
    body := "<!doctype html><title>404 Not Found</title><h1>Not Found</h1>" }

/-- The framework-default 405 Method Not Allowed response. -/
def methodNotAllowedResponse : Response :=
  { status := 405
    contentType := "text/html"
    body := "<!doctype html><title>405 Method Not Allowed</title>" }

/-- The framework-default 500 Internal Server Error response, produced when
an exception (here: a missing template) escapes a handler. -/
def internalServerErrorResponse : Response :=
  { status := 500
    contentType := "text/html"
    body := "<!doctype html><title>500 Internal Server Error</title>" }

/-- Invoke the endpoint a matched route names. The only endpoint this
application registers is `index`; a successful render becomes a 200
`text/html` response, a missing template escapes as `none`. -/
def invoke_endpoint (endpoint : String) (env : TemplateEnv) : Option Response :=
  if endpoint = "index" then
    (index env).map fun html => { status := 200, contentType := "text/html", body := html }
  else
    none

/-- The rule `/static/<path:filename>` the framework auto-registers on the
instance because the constructor is given `static_folder='static'`: it
matches every path of the form `/static/` followed by a non-empty filename
(the `path` converter lets the filename contain slashes). -/
def static_rule_matches (path : String) : Prop :=
  path.take 8 = "/static/" ∧ path.drop 8 ≠ ""

instance static_rule_matches_dec (path : String) :
    Decidable (static_rule_matches path) :=
  inferInstanceAs (Decidable (_ ∧ _))

/-- The filename a path matched by the static rule refers to. -/
def static_filename (path : String) : String :=
  path.drop 8

/-- Serving an existing static file: status 200 with the file's contents.
The framework guesses the Content-Type from the filename; no claim concerns
it, so it is modelled as a fixed placeholder. -/
def staticFileResponse (contents : String) : Response :=
  { status := 200, contentType := "application/octet-stream", body := contents }

/-- Framework request dispatch: first the route table the code registers,
then the auto-registered static rule (an existing file is served with 200,
a missing one gets the 404 default, a disallowed method the 405 default);
a path matched by no rule falls through to the 404 default, a registered
route hit with a disallowed method to the 405 default, and an exception
escaping the handler (missing template) to the 500 default. -/
def handle (app : FlaskApp) (env : TemplateEnv) (sfs : StaticEnv)
    (req : Request) : Response :=
  match app.routes.find? (fun r => r.rule = req.path) with
  | none =>
    if static_rule_matches req.path then
      if req.method ∈ ["GET", "HEAD", "OPTIONS"] then
        match sfs (static_filename req.path) with
        | some contents => staticFileResponse contents
        | none => notFoundResponse
      else
        methodNotAllowedResponse
    else
      notFoundResponse
  | some r =>
    if req.method ∈ r.methods then
      match invoke_endpoint r.endpoint env with
      | some resp => resp
      | none => internalServerErrorResponse
    else
      methodNotAllowedResponse

/-- Handling a request produces a response and leaves the application
configuration as it was: the handler and the framework never mutate it. -/
def handle_step (app : FlaskApp) (env : TemplateEnv) (sfs : StaticEnv)
    (req : Request) : FlaskApp × Response :=
  (app, handle app env sfs req)

/-- Handle a sequence of requests in order, threading the application
configuration through, and return the final configuration. -/
def handle_all (app : FlaskApp) (env : TemplateEnv) (sfs : StaticEnv) :
    List Request → FlaskApp
  | [] => app
  | req :: reqs => handle_all (handle_step app env sfs req).1 env sfs reqs

/-- A started development server: the application it serves and the bind
parameters `run` was given. -/
structure RunningServer where
  app : FlaskApp
  host : String
  port : Nat
  debug : Bool
  deriving Repr, DecidableEq

/-- `app.run(host='0.0.0.0', port=5000, debug=True)` on the given app. -/
def run (app : FlaskApp) (host : String) (port : Nat) (debug : Bool) :
    RunningServer :=
  { app := app, host := host, port := port, debug := debug }

/-- Module-level execution: under `if __name__ == '__main__':` the module
invokes the factory and starts the returned instance on `0.0.0.0:5000` with
debug enabled; on a plain import nothing runs and no server is started. -/
def module_main (name : String) : Option RunningServer :=
  if name = "__main__" then
    some (run create_app "0.0.0.0" 5000 true)
  else
    none

/-- A convenient GET request to `'/'` carrying the given headers, query
string and body. -/
def getRoot (headers : List (String × String)) (query body : String) : Request :=
  { method := "GET", path := "/", headers := headers, query := query, body := body }

/-- A template environment in which `index.html` exists with the given
contents and no other template exists. -/
def envWithIndex (html : String) : TemplateEnv :=
  fun name => if name = "index.html" then some html else none

/-- A template environment in which no template exists. -/
def envEmpty : TemplateEnv :=
  fun _ => none

/-- A static directory in which no file exists. -/
def staticEmpty : StaticEnv :=
  fun _ => none

/-- A static directory containing exactly the file `app.js`. -/
def staticWithAppJs : StaticEnv :=
  fun name => if name = "app.js" then some "console.log(1);" else none

/-- A GET request for the static asset `app.js`. -/
def getStaticAppJs : Request :=
  { method := "GET", path := "/static/app.js", headers := [], query := "", body := "" }

end Climb

namespace Climb

/-- C1: with the template present and rendering successfully, `GET /` on the
application returned by `create_app` responds 200 with Content-Type
`text/html` and a body non-empty and equal to the rendered `index.html`
template. This fails as stated when the template renders to the empty
string: the status is 200 and the body equals the rendered template, but
that body is empty. -/
theorem c1_counterexample :
    (handle create_app (envWithIndex "") staticEmpty (getRoot [] "" "")).status = 200 ∧
    (handle create_app (envWithIndex "") staticEmpty (getRoot [] "" "")).body = "" := by
  constructor <;> rfl

/-- C1 (amended): for every GET request to `/`, if `index.html` exists and
renders to `html`, the response is status 200, Content-Type `text/html`,
with body equal to `html`; in particular the body is non-empty whenever the
rendered template is non-empty. -/
theorem c1_get_root_renders_template (env : TemplateEnv) (sfs : StaticEnv)
    (html : String) (req : Request) (henv : env "index.html" = some html)
    (hm : req.method = "GET") (hp : req.path = "/") :
    handle create_app env sfs req =
      { status := 200, contentType := "text/html", body := html } ∧
    (html ≠ "" → (handle create_app env sfs req).body ≠ "") := by
  have hresp : handle create_app env sfs req =
      { status := 200, contentType := "text/html", body := html } := by
    simp [handle, create_app, hp, hm, invoke_endpoint, index, render_template, henv]
  exact ⟨hresp, fun hne => by rw [hresp]; exact hne⟩

/-- Witness for C1 (amended) at a concrete environment and request. -/
theorem c1_get_root_renders_template_witness :
    handle create_app (envWithIndex "<h1>Climb</h1>") staticEmpty (getRoot [] "" "") =
      { status := 200, contentType := "text/html", body := "<h1>Climb</h1>" } ∧
    ("<h1>Climb</h1>" ≠ "" →
      (handle create_app (envWithIndex "<h1>Climb</h1>") staticEmpty (getRoot [] "" "")).body ≠ "") :=
  c1_get_root_renders_template (envWithIndex "<h1>Climb</h1>") staticEmpty "<h1>Climb</h1>"
    (getRoot [] "" "") rfl rfl rfl

/-- C2: every request whose path is not `/` gets a 404 response. This fails
as stated: the framework constructor, given `static_folder='static'`,
auto-registers the rule `/static/<path:filename>` on the instance, so a GET
for an existing static asset — here `/static/app.js` with `app.js` present
in the static directory — returns 200, not 404. -/
theorem c2_counterexample :
    getStaticAppJs.path ≠ "/" ∧
    (handle create_app envEmpty staticWithAppJs getStaticAppJs).status = 200 ∧
    (handle create_app envEmpty staticWithAppJs getStaticAppJs).status ≠ 404 := by
  refine ⟨by decide, ?_, ?_⟩ <;> decide

/-- C2 (amended): every request whose path is not `/` and is not matched by
the framework's auto-registered static rule `/static/<filename>` gets the
framework-default 404 response, since no other handler is registered. -/
theorem c2_other_paths_404 (env : TemplateEnv) (sfs : StaticEnv)
    (req : Request) (hp : req.path ≠ "/")
    (hs : ¬ static_rule_matches req.path) :
    (handle create_app env sfs req).status = 404 := by
  have hfind : create_app.routes.find? (fun r => r.rule = req.path) = none := by
    simp [create_app]
    exact fun h => hp h.symm
  simp [handle, hfind, hs, notFoundResponse]

/-- Witness for C2 (amended): `GET /nonexistent` returns 404 even with a
populated static directory. -/
theorem c2_other_paths_404_witness :
    (handle create_app envEmpty staticWithAppJs
      { method := "GET", path := "/nonexistent", headers := [], query := "", body := "" }).status
      = 404 :=
  c2_other_paths_404 envEmpty staticWithAppJs
    { method := "GET", path := "/nonexistent", headers := [], query := "", body := "" }
    (by decide) (by decide)

/-- C3: when the `index.html` template is absent at render time, every GET
request to `/` results in the framework-default 500 internal-server-error
response; the handler does not catch the rendering failure. -/
theorem c3_missing_template_500 (env : TemplateEnv) (sfs : StaticEnv)
    (req : Request) (henv : env "index.html" = none)
    (hm : req.method = "GET") (hp : req.path = "/") :
    (handle create_app env sfs req).status = 500 := by
  simp [handle, create_app, hp, hm, invoke_endpoint, index, render_template, henv]
  rfl

/-- Witness for C3 at the empty template environment. -/
theorem c3_missing_template_500_witness :
    (handle create_app envEmpty staticEmpty (getRoot [] "" "")).status = 500 :=
  c3_missing_template_500 envEmpty staticEmpty (getRoot [] "" "") rfl rfl rfl

/-- C4: any two distinct invocations of the parameterless factory yield two
distinct instances that are equivalently configured: same static root, same
template root, same route table. -/
theorem c4_factory_fresh_equivalent (m n : Nat) (hmn : m ≠ n) :
    (create_app_call m).2 ≠ (create_app_call n).2 ∧
    (create_app_call m).1.static_folder = (create_app_call n).1.static_folder ∧
    (create_app_call m).1.template_folder = (create_app_call n).1.template_folder ∧
    (create_app_call m).1.routes = (create_app_call n).1.routes :=
  ⟨hmn, rfl, rfl, rfl⟩

/-- Witness for C4 at calls 0 and 1. -/
theorem c4_factory_fresh_equivalent_witness :
    (create_app_call 0).2 ≠ (create_app_call 1).2 ∧
    (create_app_call 0).1.static_folder = (create_app_call 1).1.static_folder ∧
    (create_app_call 0).1.template_folder = (create_app_call 1).1.template_folder ∧
    (create_app_call 0).1.routes = (create_app_call 1).1.routes :=
  c4_factory_fresh_equivalent 0 1 (by decide)

/-- C5: the instance returned by `create_app` has exactly one registered
route, mapping the root path `/` to the `index` handler. -/
theorem c5_single_root_route :
    create_app.routes.length = 1 ∧
    create_app.routes.map Route.rule = ["/"] ∧
    create_app.routes.map Route.endpoint = ["index"] :=
  ⟨rfl, rfl, rfl⟩

/-- C6: `create_app` sets the static-file root to `static` and the template
root to `templates`. -/
theorem c6_fixed_asset_roots :
    create_app.static_folder = "static" ∧
    create_app.template_folder = "templates" :=
  ⟨rfl, rfl⟩

/-- C7: executed as the process entry point, the module invokes the factory
and starts the returned instance on all interfaces (`0.0.0.0`) at port 5000
with debug enabled. -/
theorem c7_main_runs_server :
    module_main "__main__" =
      some { app := create_app, host := "0.0.0.0", port := 5000, debug := true } :=
  rfl

/-- C8: handling any sequence of requests leaves the configuration of the
instance returned by `create_app` unchanged. -/
theorem c8_config_never_mutated (env : TemplateEnv) (sfs : StaticEnv)
    (reqs : List Request) :
    handle_all create_app env sfs reqs = create_app := by
  have h : ∀ (rs : List Request) (app : FlaskApp), handle_all app env sfs rs = app := by
    intro rs
    induction rs with
    | nil => intro app; rfl
    | cons r rs ih => intro app; exact ih app
  exact h reqs create_app

/-- C9: the index handler's response is independent of request content: two
GET requests to `/` receive identical responses under the same template
environment, whatever their headers, query strings, or bodies. -/
theorem c9_response_request_independent (env : TemplateEnv) (sfs : StaticEnv)
    (req₁ req₂ : Request)
    (hm₁ : req₁.method = "GET") (hm₂ : req₂.method = "GET")
    (hp₁ : req₁.path = "/") (hp₂ : req₂.path = "/") :
    handle create_app env sfs req₁ = handle create_app env sfs req₂ := by
  simp [handle, create_app, hp₁, hp₂, hm₁, hm₂]

/-- Witness for C9: two GET `/` requests with different headers, query
strings, and bodies receive the same response. -/
theorem c9_response_request_independent_witness :
    handle create_app (envWithIndex "<h1>Climb</h1>") staticEmpty
        (getRoot [("X-Secret", "a")] "q=1" "body-one") =
      handle create_app (envWithIndex "<h1>Climb</h1>") staticEmpty
        (getRoot [("Cookie", "b")] "q=2" "body-two") :=
  c9_response_request_independent (envWithIndex "<h1>Climb</h1>") staticEmpty
    (getRoot [("X-Secret", "a")] "q=1" "body-one")
    (getRoot [("Cookie", "b")] "q=2" "body-two") rfl rfl rfl rfl

/-- C10: importing the module under any name other than `__main__` starts no
server: the factory invocation and `app.run` are guarded by the
`__name__ == '__main__'` check. -/
theorem c10_import_no_side_effects (name : String) (h : name ≠ "__main__") :
    module_main name = none := by
  simp [module_main, h]

/-- Witness for C10 at the module's import name. -/
theorem c10_import_no_side_effects_witness :
    module_main "flask_app.app" = none :=
  c10_import_no_side_effects "flask_app.app" (by decide)

end Climb
